import Mathlib

/-!
Shallow embedding of `src/fetch-items.py` (the rust-issue-archive fetcher).

The embedding models:
 * JSON values as an inductive `Json`, with Python-style dictionary lookup
   and truthiness;
 * the backoff policy `backoff_sleep` as a rational-valued sleep time
   parametrised by the jitter draw;
 * `GitHubClient.fetch` as a recursion over a per-attempt outcome oracle,
   producing a result, the final rate-limit tracker state and a trace of
   request / wait events;
 * `GitHubClient.fetch_paginated` as a fuelled recursion over a per-URL
   oracle, producing the concatenated items and the list of requested URLs;
 * `extract_xrefs` as a fallible (Python exceptions become `Except.error`)
   pure function over a list of timeline events;
 * `process_item` as a pure state transformer over a marker `Store`,
   parametrised by a `Network` oracle, returning the stats dictionary, the
   updated store and the trace of network calls.
-/

set_option autoImplicit false
set_option maxRecDepth 8000

/-- JSON values, as produced by `response.json()` in the source. -/
inductive Json where
  | null : Json
  | bool (b : Bool) : Json
  | num (n : Int) : Json
  | str (s : String) : Json
  | arr (elems : List Json) : Json
  | obj (fields : List (String × Json)) : Json

/-- Python `dict.get(key)` over the association-list representation of a
JSON object: the first binding of the key, if any. -/
def jLookup : List (String × Json) → String → Option Json
  | [], _ => none
  | (k, v) :: rest, key => if k = key then some v else jLookup rest key

/-- Python truthiness of a JSON value (`bool(x)`): `None`, `False`, `0`,
empty string, empty list and empty dict are falsy, everything else truthy. -/
def pyTruthy : Json → Bool
  | .null => false
  | .bool b => b
  | .num n => n ≠ 0
  | .str s => s ≠ ""
  | .arr l => ! l.isEmpty
  | .obj kvs => ! kvs.isEmpty

/-- Python `x or {}`: `x` when truthy, the empty dict otherwise. -/
def pyOrEmpty (j : Json) : Json :=
  if pyTruthy j then j else .obj []

/-- Python dict assignment `d[key] = v`: overwrite in place when the key is
present, append at the end otherwise. -/
def setKey : List (String × Json) → String → Json → List (String × Json)
  | [], k, v => [(k, v)]
  | (k', v') :: rest, k, v =>
    if k' = k then (k, v) :: rest else (k', v') :: setKey rest k v

/-- Lexicographic strict comparison of character lists by code point,
matching Python string `<`. -/
def strLtChars : List Char → List Char → Bool
  | [], [] => false
  | [], _ :: _ => true
  | _ :: _, [] => false
  | a :: as, b :: bs =>
    if a.val < b.val then true
    else if b.val < a.val then false
    else strLtChars as bs

/-- Python string `a >= b` (lexicographic by code point). -/
def strGe (a b : String) : Bool := ! strLtChars a.data b.data

/-- `CUTOFF_DATE` from the source. -/
def CUTOFF_DATE : String := "2016-01-01T00:00:00Z"

/-- `MAX_RETRIES` from the source. -/
def MAX_RETRIES : Nat := 5

/-- `RATE_LIMIT_BUFFER` from the source. -/
def RATE_LIMIT_BUFFER : Int := 100

/-- `BASE_BACKOFF` from the source, as a rational. -/
def BASE_BACKOFF : ℚ := 2

/-- `JITTER` from the source, as a rational. -/
def JITTER : ℚ := 1 / 4

/-- The sleep duration computed by `backoff_sleep(attempt)` for a given
jitter draw `r = random.random() ∈ [0, 1)`:
`base + base * JITTER * (2 * r - 1)` with `base = BASE_BACKOFF ** attempt`. -/
def backoff_sleep_time (attempt : Nat) (r : ℚ) : ℚ :=
  let base := BASE_BACKOFF ^ attempt
  base + base * JITTER * (2 * r - 1)

/-- `actor = event.get("actor"); actor.get("login") if isinstance(actor, dict)
else None` from `extract_xrefs`, with a missing login becoming JSON null. -/
def actorLoginOf (kvs : List (String × Json)) : Json :=
  match jLookup kvs ("actor") with
  | some (.obj a) => (jLookup a ("login")).getD .null
  | _ => .null

/-- The dict appended by `extract_xrefs` for a `cross-referenced` event. -/
def crossEntry (kvs skvs : List (String × Json)) (n : Json) : Json :=
  .obj [("event", .str ("cross-referenced")),
        ("from", n),
        ("type", (jLookup skvs ("type")).getD (.str ("issue"))),
        ("actor", actorLoginOf kvs),
        ("date", (jLookup kvs ("created_at")).getD .null)]

/-- The dict appended by `extract_xrefs` for a `referenced` event. -/
def refEntry (kvs : List (String × Json)) (c : Json) : Json :=
  .obj [("event", .str ("referenced")),
        ("commit", c),
        ("actor", actorLoginOf kvs),
        ("date", (jLookup kvs ("created_at")).getD .null)]

/-- One loop iteration of `extract_xrefs`: the entry appended for one
timeline event, `none` when the event is dropped, `Except.error` when the
Python code would raise (a truthy non-dict `source` or `source.issue`). -/
def xrefOf (event : Json) : Except String (Option Json) :=
  match event with
  | .obj kvs =>
    match jLookup kvs ("event") with
    | some (.str t) =>
      if t = "cross-referenced" then
        match pyOrEmpty ((jLookup kvs ("source")).getD .null) with
        | .obj skvs =>
          match pyOrEmpty ((jLookup skvs ("issue")).getD .null) with
          | .obj ikvs =>
            match jLookup ikvs ("number") with
            | some n =>
              if pyTruthy n then .ok (some (crossEntry kvs skvs n)) else .ok none
            | none => .ok none
          | _ => .error ("AttributeError: issue.get")
        | _ => .error ("AttributeError: source.get")
      else if t = "referenced" then
        match jLookup kvs ("commit_id") with
        | some c =>
          if pyTruthy c then .ok (some (refEntry kvs c)) else .ok none
        | none => .ok none
      else .ok none
    | _ => .ok none
  | _ => .ok none

/-- `extract_xrefs(timeline)`: the loop over the events, accumulating the
emitted entries in order; a raised exception aborts with `Except.error`. -/
def extract_xrefs : List Json → Except String (List Json)
  | [] => .ok []
  | e :: rest =>
    match xrefOf e with
    | .error m => .error m
    | .ok none => extract_xrefs rest
    | .ok (some x) =>
      match extract_xrefs rest with
      | .error m => .error m
      | .ok xs => .ok (x :: xs)

/-- Rate-limit tracker state of `GitHubClient`: `rate_remaining` and
`rate_reset`, each `None` until first observed. -/
structure RateState where
  remaining : Option Int
  reset : Option Int

/-- The outcome of one attempt inside `GitHubClient.fetch`: either an
exception raised by `client.get` (timeout / transport error), or an HTTP
response with its two rate-limit headers (when present), its status code
and the outcome of parsing its body. -/
inductive AttemptOutcome where
  | exn : AttemptOutcome
  | resp (remHdr resetHdr : Option Int) (status : Nat)
      (body : Except String Json) : AttemptOutcome

/-- Observable events of one `fetch` call, in order: each HTTP request
issued, each backoff sleep, each post-429/403 rate-limit sleep, and each
sleep performed by `_check_rate_limit`. -/
inductive FEvent where
  | request (attempt : Nat) : FEvent
  | backoffWait (attempt : Nat) : FEvent
  | rateLimitWait (sleepFor : Int) : FEvent
  | checkWait (sleepFor : Int) : FEvent

/-- `_update_rate_limit(response)`: each field is overwritten when the
corresponding header is present and kept otherwise. -/
def updateRate (st : RateState) (remHdr resetHdr : Option Int) : RateState :=
  { remaining := match remHdr with | some r => some r | none => st.remaining,
    reset := match resetHdr with | some r => some r | none => st.reset }

/-- `_handle_rate_limit_response`: when `rate_reset` is truthy and
`rate_reset - now + 10` is positive, sleep for that long. The returned list
is the wait events performed. -/
def rateLimitWaitEvents (st : RateState) (now : Int) : List FEvent :=
  match st.reset with
  | some r =>
    if r ≠ 0 then
      (if r - now + 10 > 0 then [.rateLimitWait (r - now + 10)] else [])
    else []
  | none => []

/-- `_check_rate_limit`: when `rate_remaining` is known and below
`RATE_LIMIT_BUFFER` and `rate_reset` is truthy and `rate_reset - now + 5`
is positive, sleep for that long. -/
def checkRateEvents (st : RateState) (now : Int) : List FEvent :=
  match st.remaining with
  | some rem =>
    if rem < RATE_LIMIT_BUFFER then
      match st.reset with
      | some r =>
        if r ≠ 0 then
          (if r - now + 5 > 0 then [.checkWait (r - now + 5)] else [])
        else []
      | none => []
    else []
  | none => []

/-- The error message of the exception raised when `fetch` exhausts its
attempt budget. -/
def failMsg (endpoint : String) : String :=
  "Failed after " ++ toString MAX_RETRIES ++ " attempts: " ++ endpoint

/-- The observable outcome of one `fetch` call: the returned value (`ok
none` for 404, `ok (some v)` for a parsed 200 body, `error` for the raised
exception on exhaustion), the final tracker state, and the event trace. -/
structure FetchRun where
  result : Except String (Option Json)
  state : RateState
  events : List FEvent

/-- The retry loop of `GitHubClient.fetch`, recursing on the number of
attempts left; `attempt` is the 0-based index of the next attempt and
`oracle` gives each attempt's outcome. -/
def fetchGo (endpoint : String) (now : Int) (oracle : Nat → AttemptOutcome) :
    Nat → Nat → RateState → FetchRun
  | 0, _, st => ⟨.error (failMsg endpoint), st, []⟩
  | n + 1, attempt, st =>
    match oracle attempt with
    | .exn =>
      let rest := fetchGo endpoint now oracle n (attempt + 1) st
      ⟨rest.result, rest.state,
        .request attempt :: .backoffWait attempt :: rest.events⟩
    | .resp remHdr resetHdr status body =>
      let st' := updateRate st remHdr resetHdr
      if status = 404 then ⟨.ok none, st', [.request attempt]⟩
      else if status = 403 ∨ status = 429 then
        let rest := fetchGo endpoint now oracle n (attempt + 1) st'
        ⟨rest.result, rest.state,
          .request attempt :: (rateLimitWaitEvents st' now ++ rest.events)⟩
      else if status ≠ 200 then
        let rest := fetchGo endpoint now oracle n (attempt + 1) st'
        ⟨rest.result, rest.state,
          .request attempt :: .backoffWait attempt :: rest.events⟩
      else
        match body with
        | .ok v => ⟨.ok (some v), st', .request attempt :: checkRateEvents st' now⟩
        | .error _ =>
          let rest := fetchGo endpoint now oracle n (attempt + 1) st'
          ⟨rest.result, rest.state,
            .request attempt ::
              (checkRateEvents st' now ++ .backoffWait attempt :: rest.events)⟩

/-- `GitHubClient.fetch(endpoint)`: the retry loop run for `MAX_RETRIES`
attempts starting from tracker state `st`. -/
def fetchModel (endpoint : String) (now : Int) (oracle : Nat → AttemptOutcome)
    (st : RateState) : FetchRun :=
  fetchGo endpoint now oracle MAX_RETRIES 0 st

/-- Whether an event is the issuing of an HTTP request. -/
def isRequest : FEvent → Bool
  | .request _ => true
  | _ => false

/-- Number of HTTP requests issued in a trace. -/
def requestCount (evs : List FEvent) : Nat := evs.countP isRequest

/-- An attempt outcome on which the `fetch` loop returns (404, or 200 with
a parseable body); on every other outcome the loop continues. -/
def isTerminal : AttemptOutcome → Bool
  | .exn => false
  | .resp _ _ status body =>
    if status = 404 then true
    else if status = 403 ∨ status = 429 then false
    else if status ≠ 200 then false
    else match body with | .ok _ => true | .error _ => false

/-- The URL string requested by `fetch_paginated` for a given page:
`f"{endpoint}{sep}per_page=100&page={page}"`. -/
def pageUrl (endpoint : String) (page : Nat) : String :=
  let sep := if endpoint.data.contains '?' then "&" else "?"
  endpoint ++ sep ++ "per_page=100&page=" ++ toString page

/-- Python `type(x)` rendering used in the `Expected list` message. -/
def pyTypeName : Json → String
  | .null => "<class 'NoneType'>"
  | .bool _ => "<class 'bool'>"
  | .num _ => "<class 'int'>"
  | .str _ => "<class 'str'>"
  | .arr _ => "<class 'list'>"
  | .obj _ => "<class 'dict'>"

/-- The loop of `fetch_paginated`, fuelled (the Python loop need not
terminate on an adversarial oracle; `none` = out of fuel). The oracle maps
each requested URL to the result of `fetch` on it (`error` = the exception
`fetch` raises on exhaustion). Returns the outcome together with the list
of URLs requested, in order. -/
def fetchPaginatedGo (oracle : String → Except String (Option Json))
    (endpoint : String) :
    Nat → Nat → List Json → List String →
    Option (Except String (List Json) × List String)
  | 0, _, _, _ => none
  | fuel + 1, page, acc, urls =>
    let u := pageUrl endpoint page
    let urls' := urls ++ [u]
    match oracle u with
    | .error e => some (.error e, urls')
    | .ok none => some (.ok acc, urls')
    | .ok (some j) =>
      match j with
      | .arr items =>
        if items.length = 0 then some (.ok acc, urls')
        else if items.length < 100 then some (.ok (acc ++ items), urls')
        else fetchPaginatedGo oracle endpoint fuel (page + 1) (acc ++ items) urls'
      | _ => some (.error ("Expected list, got " ++ pyTypeName j), urls')

/-- `GitHubClient.fetch_paginated(endpoint)`: start at page 1 with an empty
accumulator. -/
def fetchPaginatedModel (oracle : String → Except String (Option Json))
    (endpoint : String) (fuel : Nat) :
    Option (Except String (List Json) × List String) :=
  fetchPaginatedGo oracle endpoint fuel 1 [] []

/-- The `stats` dictionary returned by `process_item`. -/
structure Stats where
  fetched : Nat
  skip404 : Nat
  skipDate : Nat
  skipExists : Nat
  failed : Nat

/-- The all-zero initial stats dictionary. -/
def Stats.zero : Stats := ⟨0, 0, 0, 0, 0⟩

/-- The durable markers of one record: the two record-level terminal
markers, and for each component its success payload (when the `.json`
marker exists) and whether its `.failed` marker exists. -/
structure Store where
  m404 : Bool
  mskip : Bool
  main : Option Json
  mainFailed : Bool
  comments : Option (List Json)
  commentsFailed : Bool
  timeline : Option (List Json)
  timelineFailed : Bool
  xrefs : Option (List Json)
  xrefsFailed : Bool

/-- The network as seen by one `process_item` invocation: the value each
client call would produce (`error` = the exception it would raise). The
timeline oracle serves both the `timeline` component and the fresh pull
made by the `xrefs` component, which hit the same endpoint. -/
structure Network where
  fetchMain : Except String (Option Json)
  fetchComments : Except String (List Json)
  fetchTimeline : Except String (List Json)

/-- One network interaction performed by `process_item`, identified by the
endpoint family it targets. -/
inductive NetCall where
  | mainCall (num : Nat) : NetCall
  | commentsCall (num : Nat) : NetCall
  | timelineCall (num : Nat) : NetCall

/-- The observable outcome of `process_item`: the stats, the updated marker
store, and the network calls performed in order. -/
structure PIResult where
  stats : Stats
  store : Store
  calls : List NetCall

/-- Outcome of the in-`try` processing of a fetched `main` body. -/
inductive MainOutcome where
  | excluded (created : String) : MainOutcome
  | keep (payload : Json) (itemType : String) : MainOutcome

/-- `data.get("created_at", "")` followed by the string comparison: a
missing key defaults to the empty string, a string value is returned, and
any other value would make the `>=` comparison raise (`none`). -/
def getCreatedAt (kvs : List (String × Json)) : Option String :=
  match jLookup kvs ("created_at") with
  | none => some ""
  | some (.str s) => some s
  | some _ => none

/-- `"pr" if "pull_request" in data else "issue"`. -/
def itemTypeOf (kvs : List (String × Json)) : String :=
  if (jLookup kvs ("pull_request")).isSome then "pr" else "issue"

/-- The `_meta` dict attached to the persisted `main` payload. -/
def metaFor (kvs : List (String × Json)) : Json :=
  .obj [("type", .str (itemTypeOf kvs))]

/-- The processing of a fetched `main` body inside the `try` block: the
cutoff comparison, then the type classification and `_meta` attachment;
a Python exception (non-dict body, non-string `created_at`) becomes
`Except.error` and is caught by the driver's `except` clause. -/
def classifyMain (data : Json) : Except String MainOutcome :=
  match data with
  | .obj kvs =>
    match getCreatedAt kvs with
    | none => .error ("TypeError: unorderable types in comparison")
    | some s =>
      if strGe s CUTOFF_DATE then .ok (.excluded s)
      else .ok (.keep (.obj (setKey kvs ("_meta") (metaFor kvs))) (itemTypeOf kvs))
  | _ => .error ("AttributeError: object has no attribute get")

/-- The `main` block of `process_item`. `Sum.inl` is an early `return
stats` (404, excluded-by-date, or fetch/processing failure); `Sum.inr`
continues into the optional components. -/
def mainPhase (net : Network) (num : Nat) (doM : Bool) (st : Store) :
    Sum PIResult PIResult :=
  if doM then
    if st.main.isSome then
      .inr ⟨{ Stats.zero with skipExists := 1 }, st, []⟩
    else
      match net.fetchMain with
      | .error _ =>
        .inl ⟨{ Stats.zero with failed := 1 },
          { st with mainFailed := true }, [.mainCall num]⟩
      | .ok none =>
        .inl ⟨{ Stats.zero with skip404 := 1 },
          { st with m404 := true }, [.mainCall num]⟩
      | .ok (some data) =>
        match classifyMain data with
        | .error _ =>
          .inl ⟨{ Stats.zero with failed := 1 },
            { st with mainFailed := true }, [.mainCall num]⟩
        | .ok (.excluded _) =>
          .inl ⟨{ Stats.zero with skipDate := 1 },
            { st with mskip := true }, [.mainCall num]⟩
        | .ok (.keep payload _) =>
          .inr ⟨{ Stats.zero with fetched := 1 },
            { st with main := some payload, mainFailed := false },
            [.mainCall num]⟩
  else .inr ⟨Stats.zero, st, []⟩

/-- The `comments` block of `process_item`. -/
def commentsPhase (net : Network) (num : Nat) (doC : Bool) (acc : PIResult) :
    PIResult :=
  if doC then
    if acc.store.comments.isSome then
      { acc with stats := { acc.stats with skipExists := acc.stats.skipExists + 1 } }
    else
      match net.fetchComments with
      | .ok items =>
        ⟨{ acc.stats with fetched := acc.stats.fetched + 1 },
          { acc.store with comments := some items, commentsFailed := false },
          acc.calls ++ [.commentsCall num]⟩
      | .error _ =>
        ⟨{ acc.stats with failed := acc.stats.failed + 1 },
          { acc.store with commentsFailed := true },
          acc.calls ++ [.commentsCall num]⟩
  else acc

/-- The `timeline` block of `process_item`. -/
def timelinePhase (net : Network) (num : Nat) (doT : Bool) (acc : PIResult) :
    PIResult :=
  if doT then
    if acc.store.timeline.isSome then
      { acc with stats := { acc.stats with skipExists := acc.stats.skipExists + 1 } }
    else
      match net.fetchTimeline with
      | .ok items =>
        ⟨{ acc.stats with fetched := acc.stats.fetched + 1 },
          { acc.store with timeline := some items, timelineFailed := false },
          acc.calls ++ [.timelineCall num]⟩
      | .error _ =>
        ⟨{ acc.stats with failed := acc.stats.failed + 1 },
          { acc.store with timelineFailed := true },
          acc.calls ++ [.timelineCall num]⟩
  else acc

/-- The `xrefs` block of `process_item`: a fresh paginated pull of the
timeline endpoint, passed through `extract_xrefs`; any exception from
either step writes the failure marker. -/
def xrefsPhase (net : Network) (num : Nat) (doX : Bool) (acc : PIResult) :
    PIResult :=
  if doX then
    if acc.store.xrefs.isSome then
      { acc with stats := { acc.stats with skipExists := acc.stats.skipExists + 1 } }
    else
      match net.fetchTimeline with
      | .ok tl =>
        match extract_xrefs tl with
        | .ok xs =>
          ⟨{ acc.stats with fetched := acc.stats.fetched + 1 },
            { acc.store with xrefs := some xs, xrefsFailed := false },
            acc.calls ++ [.timelineCall num]⟩
        | .error _ =>
          ⟨{ acc.stats with failed := acc.stats.failed + 1 },
            { acc.store with xrefsFailed := true },
            acc.calls ++ [.timelineCall num]⟩
      | .error _ =>
        ⟨{ acc.stats with failed := acc.stats.failed + 1 },
          { acc.store with xrefsFailed := true },
          acc.calls ++ [.timelineCall num]⟩
  else acc

/-- `process_item(client, num, do_main, do_comments, do_timeline,
do_xrefs)`: the record driver for one numeric ID, over the marker store
`st`, with the network abstracted by `net`. -/
def process_item (net : Network) (num : Nat)
    (doM doC doT doX : Bool) (st : Store) : PIResult :=
  if st.m404 then ⟨{ Stats.zero with skip404 := 1 }, st, []⟩
  else if st.mskip then ⟨{ Stats.zero with skipDate := 1 }, st, []⟩
  else
    match mainPhase net num doM st with
    | .inl early => early
    | .inr acc =>
      if (doC || doT || doX) && !doM && !acc.store.main.isSome then acc
      else xrefsPhase net num doX (timelinePhase net num doT (commentsPhase net num doC acc))

/-- The accumulator entering the optional-component phases after a
successful `main` fetch of body `Json.obj kvs` that survives the cutoff:
one fetched, the payload with `_meta` attached persisted, the failure
marker cleared, one `main` network call made. -/
def keepAcc (num : Nat) (st : Store) (kvs : List (String × Json)) : PIResult :=
  ⟨{ Stats.zero with fetched := 1 },
    { st with main := some (.obj (setKey kvs ("_meta") (metaFor kvs))), mainFailed := false },
    [.mainCall num]⟩

/-! Helper lemmas about the optional-component phases. -/

/-- The `comments` block never touches the terminal markers, the `main`
marker or the `skip_404`/`skip_date` counters. -/
theorem commentsPhase_preserves (net : Network) (num : Nat) (b : Bool)
    (acc : PIResult) :
    (commentsPhase net num b acc).store.m404 = acc.store.m404 ∧
    (commentsPhase net num b acc).store.mskip = acc.store.mskip ∧
    (commentsPhase net num b acc).store.main = acc.store.main ∧
    (commentsPhase net num b acc).stats.skip404 = acc.stats.skip404 ∧
    (commentsPhase net num b acc).stats.skipDate = acc.stats.skipDate := by
  unfold commentsPhase
  repeat' split
  all_goals exact ⟨rfl, rfl, rfl, rfl, rfl⟩

/-- The `timeline` block never touches the terminal markers, the `main`
marker or the `skip_404`/`skip_date` counters. -/
theorem timelinePhase_preserves (net : Network) (num : Nat) (b : Bool)
    (acc : PIResult) :
    (timelinePhase net num b acc).store.m404 = acc.store.m404 ∧
    (timelinePhase net num b acc).store.mskip = acc.store.mskip ∧
    (timelinePhase net num b acc).store.main = acc.store.main ∧
    (timelinePhase net num b acc).stats.skip404 = acc.stats.skip404 ∧
    (timelinePhase net num b acc).stats.skipDate = acc.stats.skipDate := by
  unfold timelinePhase
  repeat' split
  all_goals exact ⟨rfl, rfl, rfl, rfl, rfl⟩

/-- The `xrefs` block never touches the terminal markers, the `main`
marker or the `skip_404`/`skip_date` counters. -/
theorem xrefsPhase_preserves (net : Network) (num : Nat) (b : Bool)
    (acc : PIResult) :
    (xrefsPhase net num b acc).store.m404 = acc.store.m404 ∧
    (xrefsPhase net num b acc).store.mskip = acc.store.mskip ∧
    (xrefsPhase net num b acc).store.main = acc.store.main ∧
    (xrefsPhase net num b acc).stats.skip404 = acc.stats.skip404 ∧
    (xrefsPhase net num b acc).stats.skipDate = acc.stats.skipDate := by
  unfold xrefsPhase
  repeat' split
  all_goals exact ⟨rfl, rfl, rfl, rfl, rfl⟩

/-- C1: a record-level terminal marker (`{id}.404` or `{id}.skip`), when
present at entry, makes `process_item` return immediately: no network
call, no marker written, and the matching classification count set to 1 —
whatever components are requested. -/
theorem C1_terminal_short_circuit (net : Network) (num : Nat)
    (doM doC doT doX : Bool) (st : Store)
    (h : st.m404 = true ∨ st.mskip = true) :
    (process_item net num doM doC doT doX st).calls = [] ∧
    (process_item net num doM doC doT doX st).store = st ∧
    (st.m404 = true →
      (process_item net num doM doC doT doX st).stats =
        { Stats.zero with skip404 := 1 }) ∧
    (st.m404 = false → st.mskip = true →
      (process_item net num doM doC doT doX st).stats =
        { Stats.zero with skipDate := 1 }) := by
  cases hm : st.m404 with
  | true => simp [process_item, hm]
  | false =>
    cases hs : st.mskip with
    | true => simp [process_item, hm, hs]
    | false => simp [hm, hs] at h

/-- Witness for C1 at a concrete store carrying the `.404` marker. -/
theorem C1_terminal_short_circuit_witness :
    (process_item ⟨.ok none, .ok [], .ok []⟩ 7 true true true true
        ⟨true, false, none, false, none, false, none, false, none, false⟩).calls = [] ∧
    (process_item ⟨.ok none, .ok [], .ok []⟩ 7 true true true true
        ⟨true, false, none, false, none, false, none, false, none, false⟩).stats =
      { Stats.zero with skip404 := 1 } := by
  have h := C1_terminal_short_circuit ⟨.ok none, .ok [], .ok []⟩ 7 true true true true
    ⟨true, false, none, false, none, false, none, false, none, false⟩ (Or.inl rfl)
  exact ⟨h.1, h.2.2.1 rfl⟩

/-- When `main` is requested, no marker exists yet, the fetch returns a
dict body and its `created_at` string is below the cutoff, `process_item`
is the three optional phases run on `keepAcc`. -/
theorem process_item_keep (net : Network) (num : Nat) (doC doT doX : Bool)
    (st : Store) (kvs : List (String × Json)) (s : String)
    (h404 : st.m404 = false) (hskip : st.mskip = false)
    (hmain : st.main = none)
    (hnet : net.fetchMain = .ok (some (.obj kvs)))
    (hca : getCreatedAt kvs = some s)
    (hb : strGe s CUTOFF_DATE = false) :
    process_item net num true doC doT doX st =
      xrefsPhase net num doX (timelinePhase net num doT
        (commentsPhase net num doC (keepAcc num st kvs))) := by
  simp [process_item, mainPhase, classifyMain, keepAcc, h404, hskip, hmain, hnet, hca, hb]

/-- C5: for a fetched `main` body whose `created_at` lookup yields the
string `s` (the empty string when the field is missing), the driver writes
the `.skip` terminal marker and counts the record as excluded exactly when
`s` is at or after `CUTOFF_DATE`; in particular a record created exactly at
`"2016-01-01T00:00:00Z"` is excluded and one created at
`"2015-12-31T23:59:59Z"` is not. -/
theorem C5_cutoff_exclusion (net : Network) (num : Nat) (doC doT doX : Bool)
    (st : Store) (kvs : List (String × Json)) (s : String)
    (h404 : st.m404 = false) (hskip : st.mskip = false)
    (hmain : st.main = none)
    (hnet : net.fetchMain = .ok (some (.obj kvs)))
    (hca : getCreatedAt kvs = some s) :
    (((process_item net num true doC doT doX st).store.mskip = true ∧
        (process_item net num true doC doT doX st).stats.skipDate = 1) ↔
      strGe s CUTOFF_DATE = true) ∧
    ((process_item
        ⟨.ok (some (.obj [("created_at", .str ("2016-01-01T00:00:00Z"))])), .ok [], .ok []⟩
        num true false false false
        ⟨false, false, none, false, none, false, none, false, none, false⟩).store.mskip = true ∧
      (process_item
        ⟨.ok (some (.obj [("created_at", .str ("2016-01-01T00:00:00Z"))])), .ok [], .ok []⟩
        num true false false false
        ⟨false, false, none, false, none, false, none, false, none, false⟩).stats.skipDate = 1) ∧
    ((process_item
        ⟨.ok (some (.obj [("created_at", .str ("2015-12-31T23:59:59Z"))])), .ok [], .ok []⟩
        num true false false false
        ⟨false, false, none, false, none, false, none, false, none, false⟩).store.mskip = false ∧
      (process_item
        ⟨.ok (some (.obj [("created_at", .str ("2015-12-31T23:59:59Z"))])), .ok [], .ok []⟩
        num true false false false
        ⟨false, false, none, false, none, false, none, false, none, false⟩).stats.skipDate = 0) := by
  refine ⟨?_, ⟨rfl, rfl⟩, ⟨rfl, rfl⟩⟩
  by_cases hge : strGe s CUTOFF_DATE = true
  · simp [process_item, mainPhase, classifyMain, h404, hskip, hmain, hnet, hca, hge]
  · have hb : strGe s CUTOFF_DATE = false := by
      revert hge; cases strGe s CUTOFF_DATE <;> simp
    have hkeep := process_item_keep net num doC doT doX st kvs s h404 hskip hmain hnet hca hb
    rw [hkeep]
    have hc := commentsPhase_preserves net num doC (keepAcc num st kvs)
    have ht := timelinePhase_preserves net num doT
      (commentsPhase net num doC (keepAcc num st kvs))
    have hx := xrefsPhase_preserves net num doX
      (timelinePhase net num doT (commentsPhase net num doC (keepAcc num st kvs)))
    constructor
    · rintro ⟨hm, -⟩
      rw [hx.2.1, ht.2.1, hc.2.1] at hm
      simp [keepAcc, hskip] at hm
    · intro hfalse
      rw [hb] at hfalse
      exact absurd hfalse (by simp)

/-- Witness for C5: a record created in 2020 (at or after the cutoff) is
excluded. -/
theorem C5_cutoff_exclusion_witness :
    ((process_item
        ⟨.ok (some (.obj [("created_at", .str ("2020-01-01T00:00:00Z"))])), .ok [], .ok []⟩
        3 true false false false
        ⟨false, false, none, false, none, false, none, false, none, false⟩).store.mskip = true ∧
      (process_item
        ⟨.ok (some (.obj [("created_at", .str ("2020-01-01T00:00:00Z"))])), .ok [], .ok []⟩
        3 true false false false
        ⟨false, false, none, false, none, false, none, false, none, false⟩).stats.skipDate = 1) ↔
      strGe ("2020-01-01T00:00:00Z") CUTOFF_DATE = true := by
  exact (C5_cutoff_exclusion
    ⟨.ok (some (.obj [("created_at", .str ("2020-01-01T00:00:00Z"))])), .ok [], .ok []⟩
    3 false false false
    ⟨false, false, none, false, none, false, none, false, none, false⟩
    [("created_at", .str ("2020-01-01T00:00:00Z"))] ("2020-01-01T00:00:00Z")
    rfl rfl rfl rfl rfl).1

/-- C10: a fetched `main` body with no `created_at` key (or an empty-string
value) is treated as created before the cutoff: no `.skip` marker is
written, nothing is counted as excluded, and the record is classified and
persisted with its `_meta` field — because the missing field defaults to
the empty string, which compares below the cutoff. -/
theorem C10_missing_created_at (net : Network) (num : Nat) (doC doT doX : Bool)
    (st : Store) (kvs : List (String × Json))
    (h404 : st.m404 = false) (hskip : st.mskip = false)
    (hmain : st.main = none)
    (hnet : net.fetchMain = .ok (some (.obj kvs)))
    (hca : jLookup kvs ("created_at") = none ∨
      jLookup kvs ("created_at") = some (.str (""))) :
    (process_item net num true doC doT doX st).store.mskip = false ∧
    (process_item net num true doC doT doX st).stats.skipDate = 0 ∧
    (process_item net num true doC doT doX st).store.main =
      some (.obj (setKey kvs ("_meta") (metaFor kvs))) ∧
    strGe ("") CUTOFF_DATE = false := by
  have hca' : getCreatedAt kvs = some ("") := by
    rcases hca with h | h <;> simp [getCreatedAt, h]
  have hb : strGe ("") CUTOFF_DATE = false := rfl
  have hkeep := process_item_keep net num doC doT doX st kvs ("")
    h404 hskip hmain hnet hca' hb
  rw [hkeep]
  have hc := commentsPhase_preserves net num doC (keepAcc num st kvs)
  have ht := timelinePhase_preserves net num doT
    (commentsPhase net num doC (keepAcc num st kvs))
  have hx := xrefsPhase_preserves net num doX
    (timelinePhase net num doT (commentsPhase net num doC (keepAcc num st kvs)))
  refine ⟨?_, ?_, ?_, rfl⟩
  · rw [hx.2.1, ht.2.1, hc.2.1]
    simpa [keepAcc] using hskip
  · rw [hx.2.2.2.2, ht.2.2.2.2, hc.2.2.2.2]
    simp [keepAcc, Stats.zero]
  · rw [hx.2.2.1, ht.2.2.1, hc.2.2.1]
    simp [keepAcc]

/-- Witness for C10: a body whose only key is `title` (no `created_at`). -/
theorem C10_missing_created_at_witness :
    (process_item
        ⟨.ok (some (.obj [("title", .str ("x"))])), .ok [], .ok []⟩
        4 true false false false
        ⟨false, false, none, false, none, false, none, false, none, false⟩).store.mskip = false ∧
    (process_item
        ⟨.ok (some (.obj [("title", .str ("x"))])), .ok [], .ok []⟩
        4 true false false false
        ⟨false, false, none, false, none, false, none, false, none, false⟩).stats.skipDate = 0 ∧
    (process_item
        ⟨.ok (some (.obj [("title", .str ("x"))])), .ok [], .ok []⟩
        4 true false false false
        ⟨false, false, none, false, none, false, none, false, none, false⟩).store.main =
      some (.obj (setKey [("title", .str ("x"))] ("_meta") (metaFor [("title", .str ("x"))]))) ∧
    strGe ("") CUTOFF_DATE = false := by
  exact C10_missing_created_at
    ⟨.ok (some (.obj [("title", .str ("x"))])), .ok [], .ok []⟩
    4 false false false
    ⟨false, false, none, false, none, false, none, false, none, false⟩
    [("title", .str ("x"))] rfl rfl rfl rfl (Or.inl rfl)

/-- C7: when `xrefs` is requested and its own success marker is absent,
the driver pulls the timeline endpoint afresh via the paginated fetch —
even though a `timeline` success marker (with any stored payload) already
exists — and persists exactly the extraction of that fresh pull; the
stored timeline payload is never consulted. -/
theorem C7_xrefs_fresh_timeline (net : Network) (num : Nat) (doT : Bool)
    (st : Store) (p : Json) (tlStored tl xs : List Json)
    (h404 : st.m404 = false) (hskip : st.mskip = false)
    (hmain : st.main = some p)
    (htl : st.timeline = some tlStored)
    (hxr : st.xrefs = none)
    (hnet : net.fetchTimeline = .ok tl)
    (hex : extract_xrefs tl = .ok xs) :
    (process_item net num false false doT true st).calls = [.timelineCall num] ∧
    (process_item net num false false doT true st).store.xrefs = some xs := by
  cases doT <;>
    simp [process_item, mainPhase, commentsPhase, timelinePhase, xrefsPhase,
      h404, hskip, hmain, htl, hxr, hnet, hex]

/-- Witness for C7: a stored timeline payload differing from the fresh
pull; the persisted xrefs come from the fresh pull. -/
theorem C7_xrefs_fresh_timeline_witness :
    (process_item ⟨.ok none, .ok [], .ok [.num 1]⟩ 9 false false true true
        ⟨false, false, some .null, false, none, false, some [.num 7], false, none, false⟩).calls =
      [.timelineCall 9] ∧
    (process_item ⟨.ok none, .ok [], .ok [.num 1]⟩ 9 false false true true
        ⟨false, false, some .null, false, none, false, some [.num 7], false, none, false⟩).store.xrefs =
      some [] := by
  exact C7_xrefs_fresh_timeline ⟨.ok none, .ok [], .ok [.num 1]⟩ 9 true
    ⟨false, false, some .null, false, none, false, some [.num 7], false, none, false⟩
    .null [.num 7] [.num 1] [] rfl rfl rfl rfl rfl rfl rfl

/-- C8: a successful fetch of every component writes each success marker
and deletes the matching failure marker, whatever the failure markers were
before: after the run no failure marker remains for any (ID, component)
pair that succeeded. -/
theorem C8_success_clears_failure (net : Network) (num : Nat) (st : Store)
    (kvs : List (String × Json)) (s : String) (cs tl xs : List Json)
    (h404 : st.m404 = false) (hskip : st.mskip = false)
    (hmain : st.main = none) (hcom : st.comments = none)
    (htl : st.timeline = none) (hxr : st.xrefs = none)
    (hnet : net.fetchMain = .ok (some (.obj kvs)))
    (hca : getCreatedAt kvs = some s) (hb : strGe s CUTOFF_DATE = false)
    (hnc : net.fetchComments = .ok cs) (hnt : net.fetchTimeline = .ok tl)
    (hex : extract_xrefs tl = .ok xs) :
    (process_item net num true true true true st).store.main =
      some (.obj (setKey kvs ("_meta") (metaFor kvs))) ∧
    (process_item net num true true true true st).store.mainFailed = false ∧
    (process_item net num true true true true st).store.comments = some cs ∧
    (process_item net num true true true true st).store.commentsFailed = false ∧
    (process_item net num true true true true st).store.timeline = some tl ∧
    (process_item net num true true true true st).store.timelineFailed = false ∧
    (process_item net num true true true true st).store.xrefs = some xs ∧
    (process_item net num true true true true st).store.xrefsFailed = false := by
  have hkeep := process_item_keep net num true true true st kvs s
    h404 hskip hmain hnet hca hb
  rw [hkeep]
  simp [commentsPhase, timelinePhase, xrefsPhase, keepAcc, hcom, htl, hxr,
    hnc, hnt, hex]

/-- Witness for C8: all four prior failure markers present, all cleared. -/
theorem C8_success_clears_failure_witness :
    (process_item ⟨.ok (some (.obj [])), .ok [], .ok []⟩ 2 true true true true
        ⟨false, false, none, true, none, true, none, true, none, true⟩).store.mainFailed = false ∧
    (process_item ⟨.ok (some (.obj [])), .ok [], .ok []⟩ 2 true true true true
        ⟨false, false, none, true, none, true, none, true, none, true⟩).store.commentsFailed = false ∧
    (process_item ⟨.ok (some (.obj [])), .ok [], .ok []⟩ 2 true true true true
        ⟨false, false, none, true, none, true, none, true, none, true⟩).store.timelineFailed = false ∧
    (process_item ⟨.ok (some (.obj [])), .ok [], .ok []⟩ 2 true true true true
        ⟨false, false, none, true, none, true, none, true, none, true⟩).store.xrefsFailed = false := by
  have h := C8_success_clears_failure ⟨.ok (some (.obj [])), .ok [], .ok []⟩ 2
    ⟨false, false, none, true, none, true, none, true, none, true⟩
    [] ("") [] [] [] rfl rfl rfl rfl rfl rfl rfl rfl rfl rfl rfl rfl
  exact ⟨h.2.1, h.2.2.2.1, h.2.2.2.2.2.1, h.2.2.2.2.2.2.2⟩

/-- C9: a `comments` fetch failure neither stops the invocation nor blocks
the `timeline` fetch: the timeline is still attempted (and here succeeds),
the comments failure marker is written and one failure is counted
alongside the one fetched component. -/
theorem C9_component_independence (net : Network) (num : Nat) (st : Store)
    (p : Json) (e : String) (tl : List Json)
    (h404 : st.m404 = false) (hskip : st.mskip = false)
    (hmain : st.main = some p) (hcom : st.comments = none)
    (htl : st.timeline = none)
    (hnc : net.fetchComments = .error e) (hnt : net.fetchTimeline = .ok tl) :
    (process_item net num false true true false st).calls =
      [.commentsCall num, .timelineCall num] ∧
    (process_item net num false true true false st).store.commentsFailed = true ∧
    (process_item net num false true true false st).store.timeline = some tl ∧
    (process_item net num false true true false st).store.timelineFailed = false ∧
    (process_item net num false true true false st).stats.failed = 1 ∧
    (process_item net num false true true false st).stats.fetched = 1 := by
  simp [process_item, mainPhase, commentsPhase, timelinePhase, xrefsPhase,
    Stats.zero, h404, hskip, hmain, hcom, htl, hnc, hnt]

/-- Witness for C9 at a concrete store and network. -/
theorem C9_component_independence_witness :
    (process_item ⟨.ok none, .error ("boom"), .ok []⟩ 11 false true true false
        ⟨false, false, some .null, false, none, false, none, false, none, false⟩).calls =
      [.commentsCall 11, .timelineCall 11] ∧
    (process_item ⟨.ok none, .error ("boom"), .ok []⟩ 11 false true true false
        ⟨false, false, some .null, false, none, false, none, false, none, false⟩).store.timeline =
      some [] := by
  have h := C9_component_independence ⟨.ok none, .error ("boom"), .ok []⟩ 11
    ⟨false, false, some .null, false, none, false, none, false, none, false⟩
    .null ("boom") [] rfl rfl rfl rfl rfl rfl rfl
  exact ⟨h.1, h.2.2.1⟩

/-- The post-rate-limit wait never issues a request. -/
theorem requestCount_rateLimitWaitEvents (st : RateState) (now : Int) :
    requestCount (rateLimitWaitEvents st now) = 0 := by
  unfold rateLimitWaitEvents requestCount
  repeat' split
  all_goals rfl

/-- The pre-return quota check never issues a request. -/
theorem requestCount_checkRateEvents (st : RateState) (now : Int) :
    requestCount (checkRateEvents st now) = 0 := by
  unfold checkRateEvents requestCount
  repeat' split
  all_goals rfl

/-- When every attempt's outcome is non-terminal, the retry loop with
budget `n` performs exactly `n` requests and exits with the exhaustion
error. -/
theorem fetchGo_nonterminal (endpoint : String) (now : Int)
    (oracle : Nat → AttemptOutcome)
    (h : ∀ i, isTerminal (oracle i) = false) :
    ∀ (n attempt : Nat) (st : RateState),
      (fetchGo endpoint now oracle n attempt st).result = .error (failMsg endpoint) ∧
      requestCount (fetchGo endpoint now oracle n attempt st).events = n := by
  intro n
  induction n with
  | zero => intro attempt st; exact ⟨rfl, rfl⟩
  | succ m ih =>
    intro attempt st
    have hterm := h attempt
    cases ho : oracle attempt with
    | exn =>
      obtain ⟨ih1, ih2⟩ := ih (attempt + 1) st
      simp [fetchGo, ho, requestCount, List.countP_cons, isRequest] at ih2 ⊢
      exact ⟨ih1, ih2⟩
    | resp remHdr resetHdr status body =>
      rw [ho] at hterm
      simp only [isTerminal] at hterm
      by_cases h404 : status = 404
      · simp [h404] at hterm
      · by_cases h4x : status = 403 ∨ status = 429
        · obtain ⟨ih1, ih2⟩ := ih (attempt + 1) (updateRate st remHdr resetHdr)
          simp [fetchGo, ho, h404, h4x, requestCount, List.countP_cons,
            List.countP_append, isRequest,
            requestCount_rateLimitWaitEvents (updateRate st remHdr resetHdr) now]
          refine ⟨ih1, ?_⟩
          have h0 : List.countP isRequest
              (rateLimitWaitEvents (updateRate st remHdr resetHdr) now) = 0 :=
            requestCount_rateLimitWaitEvents (updateRate st remHdr resetHdr) now
          simp [requestCount] at ih2
          omega
        · by_cases h200 : status = 200
          · cases body with
            | ok v => simp [h404, h4x, h200] at hterm
            | error msg =>
              obtain ⟨ih1, ih2⟩ := ih (attempt + 1) (updateRate st remHdr resetHdr)
              simp [fetchGo, ho, h404, h4x, h200, requestCount, List.countP_cons,
                List.countP_append, isRequest]
              refine ⟨ih1, ?_⟩
              have h0 : List.countP isRequest
                  (checkRateEvents (updateRate st remHdr resetHdr) now) = 0 :=
                requestCount_checkRateEvents (updateRate st remHdr resetHdr) now
              simp [requestCount] at ih2
              omega
          · obtain ⟨ih1, ih2⟩ := ih (attempt + 1) (updateRate st remHdr resetHdr)
            simp [fetchGo, ho, h404, h4x, h200, requestCount, List.countP_cons,
              isRequest] at ih2 ⊢
            exact ⟨ih1, ih2⟩

/-- C2: (1) against an endpoint whose every attempt is non-terminal
(transient error or rate-limit status), `fetch` performs exactly
`MAX_RETRIES` = 5 requests and then raises the exhaustion error naming the
endpoint; (2) for an all-transient endpoint the trace is five requests,
each but the first preceded by a backoff sleep of strictly increasing
attempt index; (3) the backoff sleep time is strictly increasing from one
attempt to the next for all jitter draws in `[0, 1)`; (4) the raised error
contains the endpoint; (5) a rate-limit (403) response is waited out,
retried, and consumes one unit of the same five-attempt budget that
transient errors consume. -/
theorem C2_retry_exhaustion :
    (∀ (endpoint : String) (now : Int) (oracle : Nat → AttemptOutcome)
        (st : RateState),
      (∀ i, isTerminal (oracle i) = false) →
      (fetchModel endpoint now oracle st).result = .error (failMsg endpoint) ∧
      requestCount (fetchModel endpoint now oracle st).events = MAX_RETRIES) ∧
    (∀ (endpoint : String) (now : Int) (st : RateState),
      (fetchModel endpoint now (fun _ => .exn) st).events =
        [.request 0, .backoffWait 0, .request 1, .backoffWait 1, .request 2,
         .backoffWait 2, .request 3, .backoffWait 3, .request 4, .backoffWait 4]) ∧
    (∀ (a : Nat) (r1 r2 : ℚ), 0 ≤ r1 → r1 < 1 → 0 ≤ r2 → r2 < 1 →
      backoff_sleep_time a r1 < backoff_sleep_time (a + 1) r2) ∧
    (∀ e : String, failMsg e = "Failed after 5 attempts: " ++ e) ∧
    ((fetchModel ("q") 0
        (fun i => if i = 0 then .resp none (some 50) 403 (.ok .null) else .exn)
        ⟨none, none⟩).result = .error (failMsg ("q")) ∧
      (fetchModel ("q") 0
        (fun i => if i = 0 then .resp none (some 50) 403 (.ok .null) else .exn)
        ⟨none, none⟩).events =
        [.request 0, .rateLimitWait 60, .request 1, .backoffWait 1, .request 2,
         .backoffWait 2, .request 3, .backoffWait 3, .request 4, .backoffWait 4]) := by
  refine ⟨?_, ?_, ?_, ?_, ?_, ?_⟩
  · intro endpoint now oracle st h
    exact fetchGo_nonterminal endpoint now oracle h MAX_RETRIES 0 st
  · intro endpoint now st
    rfl
  · intro a r1 r2 h1 h2 h3 h4
    have hp : (0:ℚ) < 2 ^ a := by positivity
    have h5 : (2:ℚ) ^ a * r1 < 2 ^ a := by nlinarith
    have h6 : (0:ℚ) ≤ 2 ^ a * r2 := by positivity
    simp only [backoff_sleep_time, BASE_BACKOFF, JITTER]
    rw [pow_succ]
    nlinarith [h5, h6, hp]
  · intro e
    rfl
  · rfl
  · rfl

/-- Witness for C2: an all-timeout endpoint exhausts the budget; backoff
sleep grows between consecutive attempts at concrete jitter draws. -/
theorem C2_retry_exhaustion_witness :
    (fetchModel ("x") 0 (fun _ => .exn) ⟨none, none⟩).result =
      .error (failMsg ("x")) ∧
    requestCount (fetchModel ("x") 0 (fun _ => .exn) ⟨none, none⟩).events =
      MAX_RETRIES ∧
    backoff_sleep_time 0 (1 / 2) < backoff_sleep_time 1 (1 / 2) := by
  have h := C2_retry_exhaustion.1 ("x") 0 (fun _ => .exn) ⟨none, none⟩
    (fun _ => rfl)
  exact ⟨h.1, h.2, C2_retry_exhaustion.2.2.1 0 (1 / 2) (1 / 2)
    (by norm_num) (by norm_num) (by norm_num) (by norm_num)⟩

/-- One step of the retry loop on a 200 response with parseable body:
update the tracker, run `_check_rate_limit`, return the body. -/
theorem fetchGo_succ_200 (endpoint : String) (now : Int)
    (oracle : Nat → AttemptOutcome) (n attempt : Nat) (st : RateState)
    (remHdr resetHdr : Option Int) (body : Json)
    (h0 : oracle attempt = .resp remHdr resetHdr 200 (.ok body)) :
    fetchGo endpoint now oracle (n + 1) attempt st =
      ⟨.ok (some body), updateRate st remHdr resetHdr,
        .request attempt :: checkRateEvents (updateRate st remHdr resetHdr) now⟩ := by
  simp [fetchGo, h0]

/-- C4 amended: the quota check runs after a successful (HTTP 200)
response, not before the request: when the tracker (as updated from that
response's headers) has `remaining` known and below `RATE_LIMIT_BUFFER`,
`resetAt` known and nonzero, and `resetAt - now + 5` positive, the client
blocks for exactly that duration after the request and before returning
the parsed body. -/
theorem C4_post_success_quota_check (endpoint : String) (now : Int)
    (oracle : Nat → AttemptOutcome) (st : RateState)
    (remHdr resetHdr : Option Int) (body : Json) (rem rst : Int)
    (h0 : oracle 0 = .resp remHdr resetHdr 200 (.ok body))
    (hupd : updateRate st remHdr resetHdr = ⟨some rem, some rst⟩)
    (hrem : rem < RATE_LIMIT_BUFFER) (hrst : rst ≠ 0)
    (hpos : rst - now + 5 > 0) :
    fetchModel endpoint now oracle st =
      ⟨.ok (some body), ⟨some rem, some rst⟩,
        [.request 0, .checkWait (rst - now + 5)]⟩ := by
  have h5 : fetchModel endpoint now oracle st =
      fetchGo endpoint now oracle (4 + 1) 0 st := rfl
  rw [h5, fetchGo_succ_200 endpoint now oracle 4 0 st remHdr resetHdr body h0,
    hupd]
  have hevents : checkRateEvents ⟨some rem, some rst⟩ now =
      [FEvent.checkWait (rst - now + 5)] := by
    simp [checkRateEvents, hrem, hrst, hpos]
  rw [hevents]

/-- Witness for the amended C4: remaining 3 (below the buffer of 100),
reset epoch 20, current time 0: one request, then a 25-second block. -/
theorem C4_post_success_quota_check_witness :
    fetchModel ("w") 0 (fun _ => .resp (some 3) (some 20) 200 (.ok .null))
        ⟨none, none⟩ =
      ⟨.ok (some .null), ⟨some 3, some 20⟩, [.request 0, .checkWait 25]⟩ := by
  have h := C4_post_success_quota_check ("w") 0
    (fun _ => .resp (some 3) (some 20) 200 (.ok .null)) ⟨none, none⟩
    (some 3) (some 20) .null 3 20 rfl rfl
    (by norm_num [RATE_LIMIT_BUFFER]) (by norm_num) (by norm_num)
  exact h

/-- Counterexample to C4 as stated: with `remaining = 0` (known and below
the buffer of 100) and `resetAt = 1000` both known before the call, the
first event of the trace is the HTTP request itself — no block is
performed before the request proceeds; the computed `resetAt - now + 5`
sleep happens only after the successful response. -/
theorem C4_pre_request_check_counterexample :
    (fetchModel ("e") 0 (fun _ => .resp none none 200 (.ok .null))
        ⟨some 0, some 1000⟩).events = [.request 0, .checkWait 1005] ∧
    List.head? ((fetchModel ("e") 0 (fun _ => .resp none none 200 (.ok .null))
        ⟨some 0, some 1000⟩).events) = some (.request 0) ∧
    (0:Int) < RATE_LIMIT_BUFFER := by
  exact ⟨rfl, rfl, by norm_num [RATE_LIMIT_BUFFER]⟩

/-- The pagination loop over `k` full pages (length exactly 100) starting
at `page`, followed by a terminal page — absent with `last = []`, or a
list of fewer than 100 items `last` — returns the accumulated pages in
API order after exactly `k + 1` page requests, naming the requested URLs. -/
theorem fetchPaginatedGo_spec (oracle : String → Except String (Option Json))
    (endpoint : String) (pages : Nat → List Json) :
    ∀ (k page : Nat) (acc : List Json) (urls : List String) (fuel : Nat)
      (last : List Json),
      (∀ i, i < k → oracle (pageUrl endpoint (page + i)) =
          .ok (some (.arr (pages (page + i)))) ∧
          (pages (page + i)).length = 100) →
      (oracle (pageUrl endpoint (page + k)) = .ok none ∧ last = [] ∨
        oracle (pageUrl endpoint (page + k)) = .ok (some (.arr last)) ∧
          last.length < 100) →
      k < fuel →
      fetchPaginatedGo oracle endpoint fuel page acc urls =
        some (.ok (acc ++ (List.range' page k).flatMap pages ++ last),
          urls ++ (List.range' page (k + 1)).map (pageUrl endpoint)) := by
  intro k
  induction k with
  | zero =>
    intro page acc urls fuel last hfull hterm hfuel
    cases fuel with
    | zero => omega
    | succ f =>
      rcases hterm with ⟨h, hl⟩ | ⟨h, hl⟩
      · rw [Nat.add_zero] at h
        subst hl
        simp [fetchPaginatedGo, h, List.range'_succ]
      · rw [Nat.add_zero] at h
        by_cases h0 : last.length = 0
        · have hnil : last = [] := List.length_eq_zero.mp h0
          subst hnil
          simp [fetchPaginatedGo, h, List.range'_succ]
        · simp [fetchPaginatedGo, h, h0, hl, List.range'_succ]
  | succ m ih =>
    intro page acc urls fuel last hfull hterm hfuel
    cases fuel with
    | zero => omega
    | succ f =>
      obtain ⟨ho, hlen⟩ := by
        have h0 := hfull 0 (Nat.succ_pos m)
        rwa [Nat.add_zero] at h0
      have hne : ¬ (pages page).length = 0 := by omega
      have hnl : ¬ (pages page).length < 100 := by omega
      have hfull' : ∀ i, i < m → oracle (pageUrl endpoint ((page + 1) + i)) =
          .ok (some (.arr (pages ((page + 1) + i)))) ∧
          (pages ((page + 1) + i)).length = 100 := by
        intro i hi
        have h2 := hfull (i + 1) (by omega)
        rwa [show page + (i + 1) = page + 1 + i by omega] at h2
      have hterm' : oracle (pageUrl endpoint ((page + 1) + m)) = .ok none ∧
          last = [] ∨
          oracle (pageUrl endpoint ((page + 1) + m)) =
            .ok (some (.arr last)) ∧ last.length < 100 := by
        rwa [show page + (m + 1) = page + 1 + m by omega] at hterm
      have hrec := ih (page + 1) (acc ++ pages page)
        (urls ++ [pageUrl endpoint page]) f last hfull' hterm' (by omega)
      simp only [fetchPaginatedGo, ho]
      rw [if_neg hne, if_neg hnl, hrec]
      simp [List.range'_succ, List.flatMap_cons, List.map_cons,
        List.append_assoc]

/-- C3: (1) the requested URL for page `p` carries `per_page=100` and the
page number, starting at page 1; (2) over `k` full pages of exactly 100
followed by a terminal page (absent, empty, or shorter than 100),
`fetch_paginated` returns the pages concatenated in API order via exactly
`k + 1` page requests; (3) a non-list page is a fatal error; (4) pages of
100, 100, 37 yield 237 items via exactly three requests; (5) pages of 100
then 0 yield 100 items via exactly two requests. -/
theorem C3_pagination :
    (∀ (e : String) (p : Nat), pageUrl e p =
      e ++ (if e.data.contains '?' then "&" else "?") ++ "per_page=100&page=" ++
        toString p) ∧
    (∀ (oracle : String → Except String (Option Json)) (endpoint : String)
        (pages : Nat → List Json) (last : List Json) (k fuel : Nat),
      (∀ i, i < k → oracle (pageUrl endpoint (1 + i)) =
          .ok (some (.arr (pages (1 + i)))) ∧ (pages (1 + i)).length = 100) →
      (oracle (pageUrl endpoint (1 + k)) = .ok none ∧ last = [] ∨
        oracle (pageUrl endpoint (1 + k)) = .ok (some (.arr last)) ∧
          last.length < 100) →
      k < fuel →
      fetchPaginatedModel oracle endpoint fuel =
        some (.ok ((List.range' 1 k).flatMap pages ++ last),
          (List.range' 1 (k + 1)).map (pageUrl endpoint))) ∧
    (∀ (oracle : String → Except String (Option Json)) (endpoint : String)
        (j : Json) (fuel : Nat),
      (∀ items, j ≠ .arr items) →
      oracle (pageUrl endpoint 1) = .ok (some j) →
      0 < fuel →
      fetchPaginatedModel oracle endpoint fuel =
        some (.error ("Expected list, got " ++ pyTypeName j),
          [pageUrl endpoint 1])) ∧
    (fetchPaginatedModel
        (fun u => if u = pageUrl ("/c") 1 then
            .ok (some (.arr (List.replicate 100 .null)))
          else if u = pageUrl ("/c") 2 then
            .ok (some (.arr (List.replicate 100 .null)))
          else if u = pageUrl ("/c") 3 then
            .ok (some (.arr (List.replicate 37 .null)))
          else .ok none)
        ("/c") 3 =
      some (.ok (List.replicate 237 Json.null),
        [pageUrl ("/c") 1, pageUrl ("/c") 2, pageUrl ("/c") 3])) ∧
    (fetchPaginatedModel
        (fun u => if u = pageUrl ("/d") 1 then
            .ok (some (.arr (List.replicate 100 .null)))
          else .ok (some (.arr [])))
        ("/d") 2 =
      some (.ok (List.replicate 100 Json.null),
        [pageUrl ("/d") 1, pageUrl ("/d") 2])) := by
  refine ⟨fun e p => rfl, ?_, ?_, rfl, rfl⟩
  · intro oracle endpoint pages last k fuel hfull hterm hfuel
    have h := fetchPaginatedGo_spec oracle endpoint pages k 1 [] [] fuel last
      hfull hterm hfuel
    simpa [fetchPaginatedModel] using h
  · intro oracle endpoint j fuel hj ho hf
    cases fuel with
    | zero => omega
    | succ f =>
      cases j with
      | arr items => exact absurd rfl (hj items)
      | null => simp [fetchPaginatedModel, fetchPaginatedGo, ho, pyTypeName]
      | bool b => simp [fetchPaginatedModel, fetchPaginatedGo, ho, pyTypeName]
      | num n => simp [fetchPaginatedModel, fetchPaginatedGo, ho, pyTypeName]
      | str s => simp [fetchPaginatedModel, fetchPaginatedGo, ho, pyTypeName]
      | obj kvs => simp [fetchPaginatedModel, fetchPaginatedGo, ho, pyTypeName]

/-- Witness for C3: the general pagination statement applied to a
three-page source, and the non-list fatal error applied to a dict page. -/
theorem C3_pagination_witness :
    fetchPaginatedModel
        (fun u => if u = pageUrl ("/w") 1 then
            .ok (some (.arr (List.replicate 100 .null)))
          else if u = pageUrl ("/w") 2 then
            .ok (some (.arr (List.replicate 100 .null)))
          else if u = pageUrl ("/w") 3 then
            .ok (some (.arr (List.replicate 37 .null)))
          else .ok none)
        ("/w") 3 =
      some (.ok (List.replicate 237 Json.null),
        [pageUrl ("/w") 1, pageUrl ("/w") 2, pageUrl ("/w") 3]) ∧
    fetchPaginatedModel (fun _ => .ok (some (.obj []))) ("/n") 1 =
      some (.error ("Expected list, got <class 'dict'>"),
        [pageUrl ("/n") 1]) := by
  constructor
  · have hfull : ∀ i, i < 2 →
        ((fun u => if u = pageUrl ("/w") 1 then
            .ok (some (.arr (List.replicate 100 .null)))
          else if u = pageUrl ("/w") 2 then
            .ok (some (.arr (List.replicate 100 .null)))
          else if u = pageUrl ("/w") 3 then
            .ok (some (.arr (List.replicate 37 .null)))
          else .ok none) : String → Except String (Option Json))
          (pageUrl ("/w") (1 + i)) =
          .ok (some (.arr ((fun _ => List.replicate 100 Json.null) (1 + i)))) ∧
          ((fun _ => List.replicate 100 Json.null) (1 + i)).length = 100 := by
      intro i hi
      interval_cases i <;> exact ⟨rfl, rfl⟩
    have h := C3_pagination.2.1
      (fun u => if u = pageUrl ("/w") 1 then
          .ok (some (.arr (List.replicate 100 .null)))
        else if u = pageUrl ("/w") 2 then
          .ok (some (.arr (List.replicate 100 .null)))
        else if u = pageUrl ("/w") 3 then
          .ok (some (.arr (List.replicate 37 .null)))
        else .ok none)
      ("/w") (fun _ => List.replicate 100 Json.null)
      (List.replicate 37 Json.null) 2 3 hfull
      (Or.inr ⟨rfl, by simp⟩) (by norm_num)
    rw [h]
    rfl
  · exact C3_pagination.2.2.1 (fun _ => .ok (some (.obj []))) ("/n")
      (.obj []) 1 (fun items h => by cases h) rfl (by norm_num)

/-- When extraction completes without raising, it emits at most one entry
per input event. -/
theorem extract_xrefs_length_le :
    ∀ (l out : List Json), extract_xrefs l = .ok out →
      out.length ≤ l.length := by
  intro l
  induction l with
  | nil =>
    intro out h
    injection h with h2
    subst h2
    exact Nat.le_refl 0
  | cons e rest ih =>
    intro out h
    simp only [extract_xrefs] at h
    cases hx : xrefOf e with
    | error m => rw [hx] at h; cases h
    | ok o =>
      rw [hx] at h
      cases o with
      | none => exact Nat.le_succ_of_le (ih out h)
      | some x =>
        cases hr : extract_xrefs rest with
        | error m => rw [hr] at h; cases h
        | ok xs =>
          rw [hr] at h
          injection h with h2
          subst h2
          exact Nat.succ_le_succ (ih xs hr)

/-- Extraction distributes over concatenation of event lists: the output
order is the input order, page by page and event by event. -/
theorem extract_xrefs_append :
    ∀ (l1 l2 o1 o2 : List Json), extract_xrefs l1 = .ok o1 →
      extract_xrefs l2 = .ok o2 →
      extract_xrefs (l1 ++ l2) = .ok (o1 ++ o2) := by
  intro l1
  induction l1 with
  | nil =>
    intro l2 o1 o2 h1 h2
    injection h1 with h3
    subst h3
    simpa using h2
  | cons e rest ih =>
    intro l2 o1 o2 h1 h2
    simp only [extract_xrefs] at h1
    rw [List.cons_append]
    cases hx : xrefOf e with
    | error m => rw [hx] at h1; cases h1
    | ok o =>
      rw [hx] at h1
      cases o with
      | none =>
        have := ih l2 o1 o2 h1 h2
        simpa [extract_xrefs, hx] using this
      | some x =>
        cases hr : extract_xrefs rest with
        | error m => rw [hr] at h1; cases h1
        | ok xs =>
          rw [hr] at h1
          injection h1 with h3
          subst h3
          simp [extract_xrefs, hx, ih l2 xs o2 hr h2]

/-- Counterexample to C6 as stated: a `referenced` event whose commit
identifier field is present — bound to the empty string — is nonetheless
dropped, so emission is not "exactly when the identifier is present":
the code decides by Python truthiness, and an empty string is falsy. -/
theorem C6_presence_counterexample :
    jLookup [("event", Json.str ("referenced")), ("commit_id", Json.str (""))]
      ("commit_id") = some (Json.str ("")) ∧
    extract_xrefs
      [Json.obj [("event", Json.str ("referenced")),
                 ("commit_id", Json.str (""))]] = .ok [] :=
  ⟨rfl, rfl⟩

/-- C6 amended: `extract_xrefs` (on inputs where it does not raise) emits
an entry for a `cross-referenced` event exactly when the nested source
issue number is present and truthy, for a `referenced` event exactly when
its commit identifier is present and truthy (non-empty); all other event
types are dropped; output order follows input order (extraction commutes
with concatenation) and the output is never longer than the input; one
populated plus one unpopulated cross-reference yield exactly one entry,
and a `referenced` event with no commit identifier is dropped. -/
theorem C6_extraction :
    (∀ (kvs : List (String × Json)) (t : String),
      jLookup kvs ("event") = some (.str t) →
      t ≠ "cross-referenced" → t ≠ "referenced" →
      xrefOf (.obj kvs) = .ok none) ∧
    (∀ kvs : List (String × Json),
      jLookup kvs ("event") = none → xrefOf (.obj kvs) = .ok none) ∧
    (∀ kvs : List (String × Json),
      jLookup kvs ("event") = some (.str ("referenced")) →
      ((∃ x, xrefOf (.obj kvs) = .ok (some x)) ↔
        (∃ c, jLookup kvs ("commit_id") = some c ∧ pyTruthy c = true))) ∧
    (∀ (kvs skvs ikvs : List (String × Json)),
      jLookup kvs ("event") = some (.str ("cross-referenced")) →
      pyOrEmpty ((jLookup kvs ("source")).getD .null) = .obj skvs →
      pyOrEmpty ((jLookup skvs ("issue")).getD .null) = .obj ikvs →
      ((∃ x, xrefOf (.obj kvs) = .ok (some x)) ↔
        (∃ n, jLookup ikvs ("number") = some n ∧ pyTruthy n = true))) ∧
    (∀ (l out : List Json), extract_xrefs l = .ok out →
      out.length ≤ l.length) ∧
    (∀ (l1 l2 o1 o2 : List Json), extract_xrefs l1 = .ok o1 →
      extract_xrefs l2 = .ok o2 →
      extract_xrefs (l1 ++ l2) = .ok (o1 ++ o2)) ∧
    (extract_xrefs
        [.obj [("event", .str ("cross-referenced")),
               ("source", .obj [("issue", .obj [("number", .num 42)])])],
         .obj [("event", .str ("cross-referenced")),
               ("source", .obj [("issue", .obj [])])]] =
      .ok [crossEntry
        [("event", .str ("cross-referenced")),
         ("source", .obj [("issue", .obj [("number", .num 42)])])]
        [("issue", .obj [("number", .num 42)])] (.num 42)]) ∧
    (extract_xrefs [.obj [("event", .str ("referenced"))]] = .ok []) := by
  refine ⟨?_, ?_, ?_, ?_, extract_xrefs_length_le, extract_xrefs_append,
    rfl, rfl⟩
  · intro kvs t h ht1 ht2
    simp [xrefOf, h, ht1, ht2]
  · intro kvs h
    simp [xrefOf, h]
  · intro kvs h
    cases hc : jLookup kvs ("commit_id") with
    | none =>
      have hnone : xrefOf (.obj kvs) = .ok none := by simp [xrefOf, h, hc]
      constructor
      · rintro ⟨x, hx⟩
        rw [hnone] at hx
        cases hx
      · rintro ⟨c, hc2, -⟩
        cases hc2
    | some c =>
      cases htr : pyTruthy c with
      | false =>
        have hnone : xrefOf (.obj kvs) = .ok none := by
          simp [xrefOf, h, hc, htr]
        constructor
        · rintro ⟨x, hx⟩
          rw [hnone] at hx
          cases hx
        · rintro ⟨c2, hc2, htr2⟩
          injection hc2 with hc3
          subst hc3
          rw [htr] at htr2
          cases htr2
      | true =>
        have hsome : xrefOf (.obj kvs) = .ok (some (refEntry kvs c)) := by
          simp [xrefOf, h, hc, htr]
        exact ⟨fun _ => ⟨c, rfl, htr⟩, fun _ => ⟨refEntry kvs c, hsome⟩⟩
  · intro kvs skvs ikvs h hs hsi
    cases hn : jLookup ikvs ("number") with
    | none =>
      have hnone : xrefOf (.obj kvs) = .ok none := by
        simp [xrefOf, h, hs, hsi, hn]
      constructor
      · rintro ⟨x, hx⟩
        rw [hnone] at hx
        cases hx
      · rintro ⟨n, hn2, -⟩
        cases hn2
    | some n =>
      cases htr : pyTruthy n with
      | false =>
        have hnone : xrefOf (.obj kvs) = .ok none := by
          simp [xrefOf, h, hs, hsi, hn, htr]
        constructor
        · rintro ⟨x, hx⟩
          rw [hnone] at hx
          cases hx
        · rintro ⟨n2, hn2, htr2⟩
          injection hn2 with hn3
          subst hn3
          rw [htr] at htr2
          cases htr2
      | true =>
        have hsome : xrefOf (.obj kvs) = .ok (some (crossEntry kvs skvs n)) := by
          simp [xrefOf, h, hs, hsi, hn, htr]
        exact ⟨fun _ => ⟨n, rfl, htr⟩, fun _ => ⟨crossEntry kvs skvs n, hsome⟩⟩

/-- Witness for the amended C6: a non-empty commit identifier and a
populated issue number each produce an entry. -/
theorem C6_extraction_witness :
    (∃ x, xrefOf (.obj [("event", .str ("referenced")),
        ("commit_id", .str ("abc"))]) = .ok (some x)) ∧
    (∃ x, xrefOf (.obj [("event", .str ("cross-referenced")),
        ("source", .obj [("issue", .obj [("number", .num 7)])])]) =
      .ok (some x)) := by
  constructor
  · exact (C6_extraction.2.2.1
      [("event", .str ("referenced")), ("commit_id", .str ("abc"))]
      rfl).mpr ⟨.str ("abc"), rfl, rfl⟩
  · exact (C6_extraction.2.2.2.1
      [("event", .str ("cross-referenced")),
       ("source", .obj [("issue", .obj [("number", .num 7)])])]
      [("issue", .obj [("number", .num 7)])] [("number", .num 7)]
      rfl rfl rfl).mpr ⟨.num 7, rfl, rfl⟩
